import Mathlib

/-
Verification of the streaming orchestration engine of ms-jarvis-svc
(src/app/services/conversation_service.py), as a shallow embedding.

The orchestrator `ConversationService.process_user_message` validates the
request, loads the bot configuration, resolves the provider, persists the
user message to the external message store, fetches the formatted history,
and returns the async generator `_handle_streaming_response`, which forwards
provider chunks to the caller while accumulating content and, on each chunk
with the `done` flag, posts the assistant message, emits a usage event and
commits.

External collaborators (nexus message store, frost telemetry sink, uuid7)
are modelled as parameters of an environment record; their responses are
inputs to the embedded functions.  Effects issued by the orchestrator are
collected in order in an explicit trace.
-/

namespace MsJarvis

/-- Token-usage counters carried in a chunk's metadata under the "usage" key.
In the source these come from `chunk.metadata.get("usage")`, a Python dict:
each counter is read with `.get`, hence `Option`. -/
structure UsageCounters where
  prompt_tokens : Option Nat
  completion_tokens : Option Nat
  deriving DecidableEq

/-- One provider stream chunk (`StreamChunk` from chainable_llm): a content
delta (the empty string models both `None` and `""`, which are equally falsy
under the source's `if chunk.content:` test), the `metadata.get("usage")`
lookup result, and the terminal flag `done`. -/
structure StreamChunk where
  content : String
  usage : Option UsageCounters
  done : Bool
  deriving DecidableEq

/-- The JSON body `_post_assistant_message` sends to the message store. -/
structure AssistantMessagePayload where
  id : String
  content : String
  status : String
  parent_id : String
  role : String
  deriving DecidableEq

/-- The JSON body `_handle_streaming_response` sends to the usage sink
(`payload_usage` in the source). -/
structure UsagePayload where
  account_id : String
  model_name : String
  input_tokens : Option Nat
  output_tokens : Option Nat
  request_id : String
  user_id : String
  tenant_id : String
  ip_address : String
  user_agent : String
  deriving DecidableEq

/-- Side effects issued by the streaming loop, in program order.
`delivered` on `postUsage` records whether the telemetry sink actually
received the event.  Modelled from the spec: the frost usage sink is
fire-and-forget (its HTTP client `app/utils/http_client.py` is not under
src/), so a delivery failure does not raise into the orchestrator. -/
inductive Effect where
  | postMessage (thread_id : String) (payload : AssistantMessagePayload)
  | postUsage (payload : UsagePayload) (delivered : Bool)
  | commit
  deriving DecidableEq

def Effect.isCommit : Effect → Bool
  | Effect.commit => true
  | _ => false

def Effect.isPostMessage : Effect → Bool
  | Effect.postMessage _ _ => true
  | _ => false

def Effect.isPostUsage : Effect → Bool
  | Effect.postUsage _ _ => true
  | _ => false

/-- Ambient data available to `_handle_streaming_response`: its arguments,
the contextvars `current_user_id`/`current_tenant_id`, the stream of uuid7
values consumed for usage-event request ids, and whether the fire-and-forget
usage sink drops the event. -/
structure StreamEnv where
  thread_id : String
  user_msg_id : String
  assistant_msg_id : String
  model_name : String
  user_id : String
  tenant_id : String
  request_ids : Nat → String
  sink_fails : Bool

/-- `"".join` of the accumulated content list. -/
def joinAll : List String → String
  | [] => ""
  | s :: rest => s ++ joinAll rest

/-- The non-empty content deltas of a chunk sequence, in order: exactly the
strings the source appends to `accumulated_content`. -/
def nonEmptyDeltas (chunks : List StreamChunk) : List String :=
  (chunks.map (fun c => c.content)).filter (fun s => s != "")

/-- The body `_post_assistant_message` posts: status "completed", parent the
user message, role "assistant". -/
def post_assistant_message (assistant_msg_id : String) (content : String)
    (user_msg_id : String) : AssistantMessagePayload :=
  { id := assistant_msg_id
    content := content
    status := "completed"
    parent_id := user_msg_id
    role := "assistant" }

/-- The `payload_usage` dict the source builds for the usage sink; `k` counts
previously handled terminal chunks, indexing the fresh uuid7 request id. -/
def build_usage_payload (env : StreamEnv) (u : UsageCounters) (k : Nat) : UsagePayload :=
  { account_id := "067423b0-81fa-702b-8000-b03b6db1eb93"
    model_name := env.model_name
    input_tokens := u.prompt_tokens
    output_tokens := u.completion_tokens
    request_id := env.request_ids k
    user_id := env.user_id
    tenant_id := env.tenant_id
    ip_address := "127.0.0.1"
    user_agent := "" }

/-- Result of running the streaming generator over a (possibly partial)
chunk sequence: the chunks yielded to the caller, the effect trace, and
whether the generator raised (the source's unguarded
`usage.get("prompt_tokens")` raises AttributeError when the terminal chunk's
metadata has no "usage" entry). -/
structure StreamRun where
  yielded : List StreamChunk
  effects : List Effect
  errored : Bool
  deriving DecidableEq

/-- The `async for` loop of `_handle_streaming_response`, one chunk at a
time: append a truthy content delta to the accumulator, yield the chunk,
then on a `done` chunk post the joined assistant message, build and emit the
usage payload and commit.  The loop does not break after a terminal chunk.
When the terminal chunk carries no usage metadata the generator raises after
the message post and before the usage post and commit. -/
def streamLoop (env : StreamEnv) (acc : List String) (k : Nat) :
    List StreamChunk → StreamRun
  | [] => { yielded := [], effects := [], errored := false }
  | c :: rest =>
    let acc2 := if c.content = "" then acc else acc ++ [c.content]
    if c.done then
      let msg := Effect.postMessage env.thread_id
        (post_assistant_message env.assistant_msg_id (joinAll acc2) env.user_msg_id)
      match c.usage with
      | none => { yielded := [c], effects := [msg], errored := true }
      | some u =>
        let r := streamLoop env acc2 (k + 1) rest
        { yielded := c :: r.yielded
          effects := msg ::
            Effect.postUsage (build_usage_payload env u k) (!env.sink_fails) ::
            Effect.commit :: r.effects
          errored := r.errored }
    else
      let r := streamLoop env acc2 k rest
      { yielded := c :: r.yielded, effects := r.effects, errored := r.errored }

/-- `_handle_streaming_response`: start with an empty accumulator. -/
def handle_streaming_response (env : StreamEnv) (chunks : List StreamChunk) : StreamRun :=
  streamLoop env [] 0 chunks

/-- One formatted history entry: the `{"role": ..., "content": ...}`
projection `_get_formatted_history` builds from the store's message list. -/
structure HistoryEntry where
  role : String
  content : String
  deriving DecidableEq

/-- The upstream generation session `_handle_streaming_response` constructs
before the loop: `base_system_prompt` from the config's custom instructions,
every history entry of `formatted_history[:-1]` replayed in order via
`llm.conversation.add_message`, and `schema.content` passed to
`llm.process_stream` as the new input. -/
structure LLMSession where
  system_prompt : String
  prior_turns : List HistoryEntry
  new_input : String
  deriving DecidableEq

/-- The bot configuration fields the orchestrator reads.  `temperature` and
`max_output_tokens` are passed through to the provider client unexamined
(and temperature is floating point), so they are not modelled. -/
structure BotConfig where
  model_name : String
  custom_instructions : String
  deriving DecidableEq

/-- Session construction of `_handle_streaming_response` (lines 88-98):
system prompt `config.custom_instructions`, replayed turns
`formatted_history[:-1]`, and `schema.content` as the fresh input. -/
def build_session (config : BotConfig) (formatted_history : List HistoryEntry)
    (schema_content : String) : LLMSession :=
  { system_prompt := config.custom_instructions
    prior_turns := formatted_history.dropLast
    new_input := schema_content }

/-- `APIError(status_code=..., message=...)`. -/
structure ApiError where
  status_code : Nat
  message : String
  deriving DecidableEq

/-- `CreateMessageRequest`: the inbound body; `id` and `parent_id` are
optional, `response_id` names the assistant message to create. -/
structure CreateMessageRequest where
  content : String
  id : Option String
  parent_id : Option String
  response_id : String
  deriving DecidableEq

/-- The user-message body `_create_payload` builds. -/
structure UserMessagePayload where
  content : String
  role : String
  id : String
  parent_id : Option String
  status : String
  deriving DecidableEq

/-- The fields of the message-store response to `_post_user_message` that
the orchestrator reads (`user_message["id"]`, `user_message["branch_id"]`). -/
structure PersistedMessage where
  id : String
  branch_id : String
  deriving DecidableEq

/-- Responses of the collaborators for one request: bot row present or not,
the `is_current = True` config row, the two credential settings, the message
store's reply to the user-message POST, the history GET reply, and the uuid7
drawn when the request supplies no message id. -/
structure ServiceEnv where
  bot_exists : Bool
  active_config : Option BotConfig
  openai_api_key : String
  anthropic_api_key : String
  post_user_message_result : UserMessagePayload → Except ApiError PersistedMessage
  history_result : Except ApiError (List HistoryEntry)
  fresh_id : String

/-- The static OpenAI model family of `_get_api_key_and_provider`. -/
def openai_models : List String :=
  ["gpt-4o", "gpt-4o-mini", "gpt-4", "gpt-4-turbo", "gpt-3.5-turbo"]

/-- The static Anthropic model family of `_get_api_key_and_provider`. -/
def anthropic_models : List String :=
  ["claude-3-5-sonnet-20241022", "claude-3-5-sonnet-20240620",
   "claude-3-haiku-20240307", "claude-3-opus-20240229",
   "claude-3-sonnet-20240229"]

/-- `_get_api_key_and_provider`: a pure table lookup, no I/O; unknown model
names fail with a 400 `APIError`. -/
def get_api_key_and_provider (env : ServiceEnv) (model_name : String) :
    Except ApiError (String × String) :=
  if model_name ∈ openai_models then Except.ok (env.openai_api_key, "openai")
  else if model_name ∈ anthropic_models then Except.ok (env.anthropic_api_key, "anthropic")
  else Except.error { status_code := 400, message := "Invalid model name" }

/-- `_create_payload`: caller-supplied id or the fresh uuid7, caller-supplied
parent link or none, status "completed". -/
def create_payload (schema : CreateMessageRequest) (fresh_id : String) : UserMessagePayload :=
  { content := schema.content
    role := "user"
    id := schema.id.getD fresh_id
    parent_id := schema.parent_id
    status := "completed" }

/-- Collaborator interactions issued by `process_user_message` before the
stream starts, in program order.  Provider resolution is pure and issues
none; the returned generator is lazy, so no provider call happens here. -/
inductive PreEffect where
  | botGet (bot_id : String)
  | configGet (bot_id : String)
  | postUserMessage (thread_id : String) (payload : UserMessagePayload)
  | historyGet (thread_id : String) (branch_id : String) (last_message_id : String)
  deriving DecidableEq

/-- The arguments `process_user_message` hands to
`_handle_streaming_response` on success. -/
structure StreamSetup where
  api_key : String
  provider : String
  config : BotConfig
  user_msg_id : String
  thread_id : String
  assistant_msg_id : String
  formatted_history : List HistoryEntry
  schema_content : String
  deriving DecidableEq

deriving instance DecidableEq for Except

/-- Outcome of the pre-stream pipeline: the result (or the APIError raised),
the interaction trace, and the list of messages durably persisted in the
external store (a user-message POST whose call failed is not counted as
persisted). -/
structure PreOutcome where
  result : Except ApiError StreamSetup
  trace : List PreEffect
  persisted : List UserMessagePayload
  deriving DecidableEq

/-- `process_user_message` (lines 33-68): reject non-streaming with a 405
before anything else; `_get_bot_config` (bot row then `is_current` config
row, each 404 on absence); `_get_api_key_and_provider`; `_create_payload`;
`_post_user_message`; `_get_formatted_history` keyed by the persisted
message's id and branch; finally return the streaming setup. -/
def process_user_message (env : ServiceEnv) (bot_id : String) (thread_id : String)
    (schema : CreateMessageRequest) (stream : Bool) : PreOutcome :=
  if !stream then
    { result := Except.error
        { status_code := 405, message := "Non-streaming responses are not implemented yet" }
      trace := []
      persisted := [] }
  else if !env.bot_exists then
    { result := Except.error { status_code := 404, message := "Bot not found" }
      trace := [PreEffect.botGet bot_id]
      persisted := [] }
  else
    match env.active_config with
    | none =>
      { result := Except.error { status_code := 404, message := "Bot config not found" }
        trace := [PreEffect.botGet bot_id, PreEffect.configGet bot_id]
        persisted := [] }
    | some config =>
      match get_api_key_and_provider env config.model_name with
      | Except.error e =>
        { result := Except.error e
          trace := [PreEffect.botGet bot_id, PreEffect.configGet bot_id]
          persisted := [] }
      | Except.ok keyprov =>
        let payload := create_payload schema env.fresh_id
        match env.post_user_message_result payload with
        | Except.error e =>
          { result := Except.error e
            trace := [PreEffect.botGet bot_id, PreEffect.configGet bot_id,
                      PreEffect.postUserMessage thread_id payload]
            persisted := [] }
        | Except.ok user_message =>
          match env.history_result with
          | Except.error e =>
            { result := Except.error e
              trace := [PreEffect.botGet bot_id, PreEffect.configGet bot_id,
                        PreEffect.postUserMessage thread_id payload,
                        PreEffect.historyGet thread_id user_message.branch_id user_message.id]
              persisted := [payload] }
          | Except.ok formatted_history =>
            { result := Except.ok
                { api_key := keyprov.1
                  provider := keyprov.2
                  config := config
                  user_msg_id := user_message.id
                  thread_id := thread_id
                  assistant_msg_id := schema.response_id
                  formatted_history := formatted_history
                  schema_content := schema.content }
              trace := [PreEffect.botGet bot_id, PreEffect.configGet bot_id,
                        PreEffect.postUserMessage thread_id payload,
                        PreEffect.historyGet thread_id user_message.branch_id user_message.id]
              persisted := [payload] }

/-- The ambient context of the generator body: contextvars, the uuid7
stream, and the fire-and-forget usage sink's delivery outcome. -/
structure AmbientCtx where
  user_id : String
  tenant_id : String
  request_ids : Nat → String
  sink_fails : Bool

/-- Assemble the `StreamEnv` of the generator from the setup computed by
`process_user_message` and the ambient context. -/
def setup_stream_env (setup : StreamSetup) (ctx : AmbientCtx) : StreamEnv :=
  { thread_id := setup.thread_id
    user_msg_id := setup.user_msg_id
    assistant_msg_id := setup.assistant_msg_id
    model_name := setup.config.model_name
    user_id := ctx.user_id
    tenant_id := ctx.tenant_id
    request_ids := ctx.request_ids
    sink_fails := ctx.sink_fails }

/-! ### Helper lemmas about the streaming loop -/

/-- On a chunk sequence containing no terminal chunk, the loop yields every
chunk, issues no effect and does not raise. -/
theorem streamLoop_no_done (env : StreamEnv) (acc : List String) (k : Nat)
    (cs : List StreamChunk) (h : ∀ c ∈ cs, c.done = false) :
    streamLoop env acc k cs = { yielded := cs, effects := [], errored := false } := by
  induction cs generalizing acc with
  | nil => rfl
  | cons c rest ih =>
    have hc : c.done = false := h c (List.mem_cons_self c rest)
    have hrest : ∀ x ∈ rest, x.done = false := fun x hx => h x (List.mem_cons_of_mem c hx)
    have ih2 := fun a => ih a hrest
    simp [streamLoop, hc, ih2]

/-- Processing a non-terminal prefix only extends the accumulator with the
prefix's non-empty deltas and prepends the prefix to the yields. -/
theorem streamLoop_append (env : StreamEnv) (cs rest : List StreamChunk)
    (acc : List String) (k : Nat) (h : ∀ x ∈ cs, x.done = false) :
    streamLoop env acc k (cs ++ rest) =
      { yielded := cs ++ (streamLoop env (acc ++ nonEmptyDeltas cs) k rest).yielded
        effects := (streamLoop env (acc ++ nonEmptyDeltas cs) k rest).effects
        errored := (streamLoop env (acc ++ nonEmptyDeltas cs) k rest).errored } := by
  induction cs generalizing acc with
  | nil => simp [nonEmptyDeltas]
  | cons c cs2 ih =>
    have hc : c.done = false := h c (List.mem_cons_self c cs2)
    have hcs2 : ∀ x ∈ cs2, x.done = false := fun x hx => h x (List.mem_cons_of_mem c hx)
    have ih2 := fun a => ih a hcs2
    by_cases hcc : c.content = ""
    · simp [streamLoop, hc, hcc, nonEmptyDeltas, ih2]
    · simp [streamLoop, hc, hcc, nonEmptyDeltas, ih2, List.append_assoc]

/-- A run consisting of a non-terminal prefix followed by a terminal chunk
carrying usage counters: every chunk is yielded and the three completion
effects are issued in order, with the message content the concatenation of
all non-empty deltas. -/
theorem streamLoop_terminal (env : StreamEnv) (cs : List StreamChunk) (c : StreamChunk)
    (u : UsageCounters) (hcs : ∀ x ∈ cs, x.done = false) (hc : c.done = true)
    (hu : c.usage = some u) :
    streamLoop env [] 0 (cs ++ [c]) =
      { yielded := cs ++ [c]
        effects := [Effect.postMessage env.thread_id
            (post_assistant_message env.assistant_msg_id
              (joinAll (nonEmptyDeltas (cs ++ [c]))) env.user_msg_id),
          Effect.postUsage (build_usage_payload env u 0) (!env.sink_fails),
          Effect.commit]
        errored := false } := by
  rw [streamLoop_append env cs [c] [] 0 hcs]
  by_cases hcc : c.content = ""
  · simp [streamLoop, hc, hu, hcc, nonEmptyDeltas, List.filter_append]
  · simp [streamLoop, hc, hu, hcc, nonEmptyDeltas, List.filter_append]

/-- Same run shape but the terminal chunk has no "usage" entry in its
metadata: the assistant message is still posted, then the generator raises;
no usage event and no commit are issued. -/
theorem streamLoop_terminal_no_usage (env : StreamEnv) (cs : List StreamChunk)
    (c : StreamChunk) (hcs : ∀ x ∈ cs, x.done = false) (hc : c.done = true)
    (hu : c.usage = none) :
    streamLoop env [] 0 (cs ++ [c]) =
      { yielded := cs ++ [c]
        effects := [Effect.postMessage env.thread_id
            (post_assistant_message env.assistant_msg_id
              (joinAll (nonEmptyDeltas (cs ++ [c]))) env.user_msg_id)]
        errored := true } := by
  rw [streamLoop_append env cs [c] [] 0 hcs]
  by_cases hcc : c.content = ""
  · simp [streamLoop, hc, hu, hcc, nonEmptyDeltas, List.filter_append]
  · simp [streamLoop, hc, hu, hcc, nonEmptyDeltas, List.filter_append]

/-- As long as every terminal chunk carries usage metadata, the loop never
raises and yields the whole input sequence unchanged. -/
theorem streamLoop_yielded (env : StreamEnv) (chunks : List StreamChunk)
    (h : ∀ c ∈ chunks, c.done = true → c.usage.isSome = true) :
    ∀ acc k, (streamLoop env acc k chunks).yielded = chunks := by
  induction chunks with
  | nil => intro acc k; rfl
  | cons c rest ih =>
    intro acc k
    have hrest : ∀ x ∈ rest, x.done = true → x.usage.isSome = true :=
      fun x hx => h x (List.mem_cons_of_mem c hx)
    have ih2 := fun a b => ih hrest a b
    cases hc : c.done with
    | false => simp [streamLoop, hc, ih2]
    | true =>
      obtain ⟨u, hu⟩ := Option.isSome_iff_exists.mp (h c (List.mem_cons_self c rest) hc)
      simp [streamLoop, hc, hu, ih2]

/-- Every usage payload the loop ever emits has the hard-coded account id,
ip address and user agent, and the contextvar-derived user and tenant. -/
theorem streamLoop_usage_fields (env : StreamEnv) (chunks : List StreamChunk) :
    ∀ acc k p d, Effect.postUsage p d ∈ (streamLoop env acc k chunks).effects →
      p.account_id = "067423b0-81fa-702b-8000-b03b6db1eb93" ∧
      p.ip_address = "127.0.0.1" ∧ p.user_agent = "" ∧
      p.user_id = env.user_id ∧ p.tenant_id = env.tenant_id := by
  induction chunks with
  | nil => intro acc k p d hmem; simp [streamLoop] at hmem
  | cons c rest ih =>
    intro acc k p d hmem
    cases hc : c.done with
    | false =>
      rw [streamLoop] at hmem
      simp only [hc, if_false, Bool.false_eq_true] at hmem
      exact ih _ _ p d hmem
    | true =>
      cases hu : c.usage with
      | none => simp [streamLoop, hc, hu] at hmem
      | some u =>
        rw [streamLoop] at hmem
        simp only [hc, hu, if_true] at hmem
        simp only [List.mem_cons] at hmem
        rcases hmem with h1 | h2 | h3 | h4
        · exact absurd h1 (by simp)
        · obtain ⟨hp, -⟩ := Effect.postUsage.inj h2
          subst hp
          simp [build_usage_payload]
        · exact absurd h3 (by simp)
        · exact ih _ _ p d h4

/-- The loop issues exactly one assistant-message post, one usage post and
one commit per terminal chunk it processes (given each terminal chunk
carries usage metadata, so the loop never raises mid-sequence). -/
theorem streamLoop_counts (env : StreamEnv) (chunks : List StreamChunk)
    (h : ∀ c ∈ chunks, c.done = true → c.usage.isSome = true) :
    ∀ acc k,
      (streamLoop env acc k chunks).effects.countP Effect.isCommit =
        chunks.countP (fun c => c.done) ∧
      (streamLoop env acc k chunks).effects.countP Effect.isPostMessage =
        chunks.countP (fun c => c.done) ∧
      (streamLoop env acc k chunks).effects.countP Effect.isPostUsage =
        chunks.countP (fun c => c.done) := by
  induction chunks with
  | nil => intro acc k; simp [streamLoop]
  | cons c rest ih =>
    intro acc k
    have hrest : ∀ x ∈ rest, x.done = true → x.usage.isSome = true :=
      fun x hx => h x (List.mem_cons_of_mem c hx)
    have ih2 := fun a b => ih hrest a b
    cases hc : c.done with
    | false =>
      simp [streamLoop, hc, List.countP_cons,
        (ih2 _ k).1, (ih2 _ k).2.1, (ih2 _ k).2.2]
    | true =>
      obtain ⟨u, hu⟩ := Option.isSome_iff_exists.mp (h c (List.mem_cons_self c rest) hc)
      simp [streamLoop, hc, hu, List.countP_cons, Effect.isCommit,
        Effect.isPostMessage, Effect.isPostUsage,
        (ih2 _ (k + 1)).1, (ih2 _ (k + 1)).2.1, (ih2 _ (k + 1)).2.2]

/-- Inversion of a successful pre-stream pipeline run: the message store
acknowledged the user-message POST with some persisted message, and the
setup wires the store-assigned id, the caller-supplied response id, the
thread and the active config into the generator's arguments. -/
theorem process_ok_setup (env : ServiceEnv) (bot_id thread_id : String)
    (schema : CreateMessageRequest) (setup : StreamSetup)
    (hsetup : (process_user_message env bot_id thread_id schema true).result =
      Except.ok setup) :
    ∃ m : PersistedMessage,
      env.post_user_message_result (create_payload schema env.fresh_id) = Except.ok m ∧
      setup.user_msg_id = m.id ∧
      setup.assistant_msg_id = schema.response_id ∧
      setup.thread_id = thread_id ∧
      ∃ config : BotConfig, env.active_config = some config ∧ setup.config = config := by
  unfold process_user_message at hsetup
  simp only [Bool.not_true, Bool.false_eq_true, if_false] at hsetup
  by_cases hbot : env.bot_exists
  · simp only [hbot, Bool.not_true, Bool.false_eq_true, if_false] at hsetup
    cases hcfg : env.active_config with
    | none => simp [hcfg] at hsetup
    | some config =>
      simp only [hcfg] at hsetup
      cases hres : get_api_key_and_provider env config.model_name with
      | error e => simp [hres] at hsetup
      | ok keyprov =>
        simp only [hres] at hsetup
        cases hpost : env.post_user_message_result (create_payload schema env.fresh_id) with
        | error e => simp [hpost] at hsetup
        | ok m =>
          simp only [hpost] at hsetup
          cases hhist : env.history_result with
          | error e => simp [hhist] at hsetup
          | ok formatted_history =>
            simp only [hhist, Except.ok.injEq] at hsetup
            subst hsetup
            exact ⟨m, rfl, rfl, rfl, rfl, config, rfl, rfl⟩
  · simp [hbot] at hsetup

/-! ### Concrete sample data for witnesses -/

/-- A bot configuration with a supported model. -/
def sampleConfig : BotConfig :=
  { model_name := "gpt-4o", custom_instructions := "You are a helpful assistant." }

/-- The end-to-end scenario request: content "hello", no caller-supplied
message id or parent, response id "resp-1". -/
def sampleSchema : CreateMessageRequest :=
  { content := "hello", id := none, parent_id := none, response_id := "resp-1" }

/-- Collaborators all succeeding: the store assigns id "m1" on branch "b1"
and returns the just-persisted message as the whole history. -/
def sampleEnv : ServiceEnv :=
  { bot_exists := true
    active_config := some sampleConfig
    openai_api_key := "sk-openai"
    anthropic_api_key := "sk-anthropic"
    post_user_message_result := fun _ => Except.ok { id := "m1", branch_id := "b1" }
    history_result := Except.ok [{ role := "user", content := "hello" }]
    fresh_id := "u7-1" }

/-- Same collaborators but the history GET fails. -/
def sampleEnvHistFail : ServiceEnv :=
  { sampleEnv with
    history_result := Except.error { status_code := 502, message := "history unavailable" } }

/-- Ambient request context with a delivered usage event. -/
def sampleCtx : AmbientCtx :=
  { user_id := "user-1", tenant_id := "tenant-1"
    request_ids := fun _ => "req-0", sink_fails := false }

/-- The setup `process_user_message` computes from `sampleEnv` and
`sampleSchema` on thread "t1". -/
def sampleSetup : StreamSetup :=
  { api_key := "sk-openai", provider := "openai", config := sampleConfig
    user_msg_id := "m1", thread_id := "t1", assistant_msg_id := "resp-1"
    formatted_history := [{ role := "user", content := "hello" }]
    schema_content := "hello" }

/-- A generator environment matching `sampleSetup` and `sampleCtx`. -/
def sampleStreamEnv : StreamEnv :=
  { thread_id := "t1", user_msg_id := "m1", assistant_msg_id := "resp-1"
    model_name := "gpt-4o", user_id := "user-1", tenant_id := "tenant-1"
    request_ids := fun _ => "req-0", sink_fails := false }

/-- Same generator environment but the usage sink drops the event. -/
def sampleSinkFailEnv : StreamEnv :=
  { sampleStreamEnv with sink_fails := true }

/-- The non-terminal chunks of the spec's end-to-end scenario. -/
def sampleChunks : List StreamChunk :=
  [{ content := "Hi", usage := none, done := false },
   { content := " there", usage := none, done := false }]

/-- The scenario's terminal chunk: empty content, usage 5/2, done. -/
def sampleTerminal : StreamChunk :=
  { content := ""
    usage := some { prompt_tokens := some 5, completion_tokens := some 2 }
    done := true }

/-! ### Claim theorems -/

/-- C1: for every stream whose chunks end with a terminal chunk, on that
chunk the orchestrator persists an assistant message whose content is the
in-order concatenation of the non-empty content deltas of all chunks seen so
far, with status "completed", parent the store-assigned identifier of the
persisted user message and id the caller-supplied response identifier; and
the emitted usage event's input/output token counts equal the
prompt/completion counters of the terminal chunk's usage metadata. -/
theorem terminal_chunk_completion_effects
    (env : ServiceEnv) (ctx : AmbientCtx) (bot_id thread_id : String)
    (schema : CreateMessageRequest) (setup : StreamSetup)
    (hsetup : (process_user_message env bot_id thread_id schema true).result =
      Except.ok setup)
    (cs : List StreamChunk) (c : StreamChunk) (u : UsageCounters)
    (hcs : ∀ x ∈ cs, x.done = false) (hc : c.done = true) (hu : c.usage = some u) :
    ∃ m : PersistedMessage,
      env.post_user_message_result (create_payload schema env.fresh_id) = Except.ok m ∧
      (handle_streaming_response (setup_stream_env setup ctx) (cs ++ [c])).effects =
        [Effect.postMessage thread_id
           { id := schema.response_id
             content := joinAll (nonEmptyDeltas (cs ++ [c]))
             status := "completed"
             parent_id := m.id
             role := "assistant" },
         Effect.postUsage
           { account_id := "067423b0-81fa-702b-8000-b03b6db1eb93"
             model_name := setup.config.model_name
             input_tokens := u.prompt_tokens
             output_tokens := u.completion_tokens
             request_id := ctx.request_ids 0
             user_id := ctx.user_id
             tenant_id := ctx.tenant_id
             ip_address := "127.0.0.1"
             user_agent := "" } (!ctx.sink_fails),
         Effect.commit] := by
  obtain ⟨m, hm, humid, haid, htid, config, hcfg, hsc⟩ :=
    process_ok_setup env bot_id thread_id schema setup hsetup
  refine ⟨m, hm, ?_⟩
  rw [handle_streaming_response, streamLoop_terminal _ cs c u hcs hc hu]
  simp [setup_stream_env, post_assistant_message, build_usage_payload, humid, haid, htid]

/-- Witness for C1: the spec's end-to-end scenario — content "hello",
chunks "Hi", " there" and an empty terminal chunk with usage 5/2 — persists
"Hi there" under "resp-1" with parent "m1" and emits the 5/2 usage event. -/
theorem terminal_chunk_completion_effects_witness :
    (handle_streaming_response (setup_stream_env sampleSetup sampleCtx)
        (sampleChunks ++ [sampleTerminal])).effects =
      [Effect.postMessage "t1"
         { id := "resp-1", content := "Hi there", status := "completed"
           parent_id := "m1", role := "assistant" },
       Effect.postUsage
         { account_id := "067423b0-81fa-702b-8000-b03b6db1eb93"
           model_name := "gpt-4o", input_tokens := some 5, output_tokens := some 2
           request_id := "req-0", user_id := "user-1", tenant_id := "tenant-1"
           ip_address := "127.0.0.1", user_agent := "" } true,
       Effect.commit] := by
  obtain ⟨m, hm, heff⟩ :=
    terminal_chunk_completion_effects sampleEnv sampleCtx "b1" "t1" sampleSchema
      sampleSetup (by decide) sampleChunks sampleTerminal
      { prompt_tokens := some 5, completion_tokens := some 2 }
      (by decide) (by decide) (by decide)
  have hm2 : m = { id := "m1", branch_id := "b1" } := (Except.ok.inj hm).symm
  subst hm2
  exact heff.trans (by decide)

/-- C2: the chunks yielded to the caller are exactly the provider's emission
sequence in order, each forwarded unmodified — for every finite sequence,
under the data-model invariant that a terminal chunk carries usage metadata
(a terminal chunk without it makes the generator raise, cutting the
sequence short). -/
theorem chunks_forwarded_in_order (env : StreamEnv) (chunks : List StreamChunk)
    (h : ∀ c ∈ chunks, c.done = true → c.usage.isSome = true) :
    (handle_streaming_response env chunks).yielded = chunks :=
  streamLoop_yielded env chunks h [] 0

/-- Witness for C2: a length-4 sequence with an empty-content chunk in the
middle and a terminal chunk at the end is forwarded verbatim; the length-1
immediate-terminal sequence as well. -/
theorem chunks_forwarded_in_order_witness :
    (handle_streaming_response sampleStreamEnv
        [{ content := "Hi", usage := none, done := false },
         { content := "", usage := none, done := false },
         { content := " there", usage := none, done := false },
         sampleTerminal]).yielded =
      [{ content := "Hi", usage := none, done := false },
       { content := "", usage := none, done := false },
       { content := " there", usage := none, done := false },
       sampleTerminal] ∧
    (handle_streaming_response sampleStreamEnv [sampleTerminal]).yielded =
      [sampleTerminal] :=
  ⟨chunks_forwarded_in_order sampleStreamEnv _ (by decide),
   chunks_forwarded_in_order sampleStreamEnv _ (by decide)⟩

/-- C3: the upstream session is seeded with the config's custom instructions
as system prompt, all history entries but the most recent replayed as prior
turns, and the most recent entry's content as the new input (the source
passes `schema.content`, which by the store's round-trip guarantee is the
content of the just-persisted newest history entry); the newest entry is
never replayed as a prior turn (prior turns ++ [newest] = history). -/
theorem session_seeding (config : BotConfig) (history : List HistoryEntry)
    (schema_content : String) (hne : history ≠ [])
    (hlast : (history.getLast hne).content = schema_content) :
    build_session config history schema_content =
      { system_prompt := config.custom_instructions
        prior_turns := history.dropLast
        new_input := (history.getLast hne).content } ∧
    (build_session config history schema_content).prior_turns ++
        [history.getLast hne] = history := by
  constructor
  · simp [build_session, hlast]
  · simp [build_session, List.dropLast_append_getLast hne]

/-- Witness for C3: with two historical entries, the older one is the single
replayed turn and the newest one's content is the fresh input. -/
theorem session_seeding_witness :
    build_session sampleConfig
        [{ role := "assistant", content := "Earlier reply" },
         { role := "user", content := "hello" }] "hello" =
      { system_prompt := "You are a helpful assistant."
        prior_turns := [{ role := "assistant", content := "Earlier reply" }]
        new_input := "hello" } := by
  have h := session_seeding sampleConfig
    [{ role := "assistant", content := "Earlier reply" },
     { role := "user", content := "hello" }] "hello" (by decide) (by decide)
  exact h.1.trans (by decide)

/-- C4 as stated is false at a concrete input: on a terminal chunk whose
metadata carries no usage counters, the assistant message is posted but the
unguarded `usage.get("prompt_tokens")` raises before `db.commit()`, so the
persistence does not commit — the effect trace holds the message post and
no commit, and the generator raises. -/
theorem usage_missing_skips_commit_counterexample :
    (handle_streaming_response sampleStreamEnv
        [{ content := "Hi there", usage := none, done := true }]).effects =
      [Effect.postMessage "t1"
         { id := "resp-1", content := "Hi there", status := "completed"
           parent_id := "m1", role := "assistant" }] ∧
    Effect.commit ∉ (handle_streaming_response sampleStreamEnv
        [{ content := "Hi there", usage := none, done := true }]).effects ∧
    (handle_streaming_response sampleStreamEnv
        [{ content := "Hi there", usage := none, done := true }]).errored = true := by
  decide

/-- C4 amended: when the terminal chunk carries usage counters, the message
post, the usage emission and the commit all happen even if the
fire-and-forget sink drops the event (`env.sink_fails` is arbitrary here,
covering delivery failure — modelled from the spec's fire-and-forget sink);
when the counters are absent, the assistant-message write still happens and
is never rolled back, but the error propagates before the commit, so no
usage event and no commit are issued. -/
theorem usage_soft_failure_amended (env : StreamEnv) (cs : List StreamChunk)
    (c : StreamChunk) (hcs : ∀ x ∈ cs, x.done = false) (hc : c.done = true) :
    (∀ u : UsageCounters, c.usage = some u →
        (handle_streaming_response env (cs ++ [c])).effects =
          [Effect.postMessage env.thread_id
             (post_assistant_message env.assistant_msg_id
               (joinAll (nonEmptyDeltas (cs ++ [c]))) env.user_msg_id),
           Effect.postUsage (build_usage_payload env u 0) (!env.sink_fails),
           Effect.commit] ∧
        (handle_streaming_response env (cs ++ [c])).errored = false) ∧
    (c.usage = none →
        (handle_streaming_response env (cs ++ [c])).effects =
          [Effect.postMessage env.thread_id
             (post_assistant_message env.assistant_msg_id
               (joinAll (nonEmptyDeltas (cs ++ [c]))) env.user_msg_id)] ∧
        (handle_streaming_response env (cs ++ [c])).errored = true) := by
  constructor
  · intro u hu
    rw [handle_streaming_response, streamLoop_terminal env cs c u hcs hc hu]
    exact ⟨rfl, rfl⟩
  · intro hu
    rw [handle_streaming_response, streamLoop_terminal_no_usage env cs c hcs hc hu]
    exact ⟨rfl, rfl⟩

/-- Witness for the amended C4: with the sink dropping the event
(`sink_fails = true`), the scenario stream still posts the message, emits
the (undelivered) usage event and commits. -/
theorem usage_soft_failure_amended_witness :
    (handle_streaming_response sampleSinkFailEnv (sampleChunks ++ [sampleTerminal])).effects =
      [Effect.postMessage sampleSinkFailEnv.thread_id
         (post_assistant_message sampleSinkFailEnv.assistant_msg_id
           (joinAll (nonEmptyDeltas (sampleChunks ++ [sampleTerminal])))
           sampleSinkFailEnv.user_msg_id),
       Effect.postUsage
         (build_usage_payload sampleSinkFailEnv
           { prompt_tokens := some 5, completion_tokens := some 2 } 0)
         (!sampleSinkFailEnv.sink_fails),
       Effect.commit] ∧
    (handle_streaming_response sampleSinkFailEnv
        (sampleChunks ++ [sampleTerminal])).errored = false :=
  (usage_soft_failure_amended sampleSinkFailEnv sampleChunks sampleTerminal
      (by decide) (by decide)).1
    { prompt_tokens := some 5, completion_tokens := some 2 } (by decide)

/-- C5 as stated is false at a concrete input: when every step succeeds up
to the history fetch and the history fetch fails, the orchestrator fails
before the Streaming state, yet the user message has already been persisted
to the store. -/
theorem pre_stream_failure_counterexample :
    (process_user_message sampleEnvHistFail "b1" "t1" sampleSchema true).result =
      Except.error { status_code := 502, message := "history unavailable" } ∧
    (process_user_message sampleEnvHistFail "b1" "t1" sampleSchema true).persisted =
      [{ content := "hello", role := "user", id := "u7-1", parent_id := none
         status := "completed" }] := by
  decide

/-- C5 amended: a failure at the streaming check, the bot lookup, the
config lookup, provider resolution or the user-message POST itself leaves
no message persisted; the one pre-Streaming failure after that point is the
history fetch, which fails the run with the collaborator's error while
leaving exactly the just-persisted user message in the store. -/
theorem pre_stream_failure_partial_state (env : ServiceEnv)
    (bot_id thread_id : String) (schema : CreateMessageRequest) (b : Bool) :
    (b = false →
      (process_user_message env bot_id thread_id schema b).persisted = []) ∧
    (env.bot_exists = false →
      (process_user_message env bot_id thread_id schema b).persisted = []) ∧
    (env.active_config = none →
      (process_user_message env bot_id thread_id schema b).persisted = []) ∧
    (∀ config : BotConfig, env.active_config = some config →
      ∀ e : ApiError,
        get_api_key_and_provider env config.model_name = Except.error e →
        (process_user_message env bot_id thread_id schema b).persisted = []) ∧
    (∀ e : ApiError,
      env.post_user_message_result (create_payload schema env.fresh_id) =
        Except.error e →
      (process_user_message env bot_id thread_id schema b).persisted = []) ∧
    (∀ config : BotConfig, ∀ keyprov : String × String, ∀ m : PersistedMessage,
      ∀ e : ApiError,
      b = true → env.bot_exists = true → env.active_config = some config →
      get_api_key_and_provider env config.model_name = Except.ok keyprov →
      env.post_user_message_result (create_payload schema env.fresh_id) =
        Except.ok m →
      env.history_result = Except.error e →
      (process_user_message env bot_id thread_id schema b).result =
        Except.error e ∧
      (process_user_message env bot_id thread_id schema b).persisted =
        [create_payload schema env.fresh_id]) := by
  refine ⟨?_, ?_, ?_, ?_, ?_, ?_⟩
  · intro hb
    subst hb
    rfl
  · intro hbot
    cases b <;> simp [process_user_message, hbot]
  · intro hcfg
    cases b with
    | false => rfl
    | true =>
      by_cases hbot : env.bot_exists <;> simp [process_user_message, hbot, hcfg]
  · intro config hcfg e hres
    cases b with
    | false => rfl
    | true =>
      by_cases hbot : env.bot_exists
      · simp [process_user_message, hbot, hcfg, hres]
      · simp [process_user_message, hbot]
  · intro e hpost
    cases b with
    | false => rfl
    | true =>
      by_cases hbot : env.bot_exists
      · cases hcfg : env.active_config with
        | none => simp [process_user_message, hbot, hcfg]
        | some config =>
          cases hres : get_api_key_and_provider env config.model_name with
          | error e2 => simp [process_user_message, hbot, hcfg, hres]
          | ok keyprov => simp [process_user_message, hbot, hcfg, hres, hpost]
      · simp [process_user_message, hbot]
  · intro config keyprov m e hb hbot hcfg hres hpost hhist
    subst hb
    constructor
    · simp [process_user_message, hbot, hcfg, hres, hpost, hhist]
    · simp [process_user_message, hbot, hcfg, hres, hpost, hhist]

/-- Witness for the amended C5: the history-failure run fails with the 502
and leaves exactly the persisted user-message payload. -/
theorem pre_stream_failure_partial_state_witness :
    (process_user_message sampleEnvHistFail "b1" "t1" sampleSchema true).result =
      Except.error { status_code := 502, message := "history unavailable" } ∧
    (process_user_message sampleEnvHistFail "b1" "t1" sampleSchema true).persisted =
      [create_payload sampleSchema sampleEnvHistFail.fresh_id] :=
  (pre_stream_failure_partial_state sampleEnvHistFail "b1" "t1" sampleSchema
      true).2.2.2.2.2 sampleConfig ("sk-openai", "openai")
    { id := "m1", branch_id := "b1" }
    { status_code := 502, message := "history unavailable" }
    rfl rfl rfl (by decide) (by decide) (by decide)

/-- C6: a stream that terminates (caller cancellation or provider failure)
before any terminal chunk runs the generator body only through its last
yield, i.e. over a terminal-free prefix of the emission sequence: no
assistant-message write, no usage event, no commit, no error — the
accumulated partial content is discarded with the generator. -/
theorem cancelled_stream_discards_partial (env : StreamEnv)
    (chunks : List StreamChunk) (k : Nat)
    (h : ∀ c ∈ chunks.take k, c.done = false) :
    (handle_streaming_response env (chunks.take k)).effects = [] ∧
    (handle_streaming_response env (chunks.take k)).errored = false ∧
    (handle_streaming_response env (chunks.take k)).yielded = chunks.take k := by
  rw [handle_streaming_response, streamLoop_no_done env [] 0 _ h]
  exact ⟨rfl, rfl, rfl⟩

/-- Witness for C6: cancelling the scenario stream after its two content
chunks, before the terminal chunk, issues no effect. -/
theorem cancelled_stream_discards_partial_witness :
    (handle_streaming_response sampleStreamEnv
        ((sampleChunks ++ [sampleTerminal]).take 2)).effects = [] ∧
    (handle_streaming_response sampleStreamEnv
        ((sampleChunks ++ [sampleTerminal]).take 2)).errored = false ∧
    (handle_streaming_response sampleStreamEnv
        ((sampleChunks ++ [sampleTerminal]).take 2)).yielded =
      (sampleChunks ++ [sampleTerminal]).take 2 :=
  cancelled_stream_discards_partial sampleStreamEnv
    (sampleChunks ++ [sampleTerminal]) 2 (by decide)

/-- C7: a request with streaming disabled fails immediately with the 405
`APIError` and an empty interaction trace: no bot or config lookup, no
message persisted, and — the returned generator never being constructed —
no provider call. -/
theorem non_streaming_rejected (env : ServiceEnv) (bot_id thread_id : String)
    (schema : CreateMessageRequest) :
    process_user_message env bot_id thread_id schema false =
      { result := Except.error
          { status_code := 405
            message := "Non-streaming responses are not implemented yet" }
        trace := []
        persisted := [] } := rfl

/-- C8: `_get_api_key_and_provider` is a pure total lookup — no I/O, no
exception other than the returned error — and every model name outside both
families yields the 400 "Invalid model name" `APIError`. -/
theorem unsupported_model_rejected (env : ServiceEnv) (model_name : String)
    (h1 : model_name ∉ openai_models) (h2 : model_name ∉ anthropic_models) :
    get_api_key_and_provider env model_name =
      Except.error { status_code := 400, message := "Invalid model name" } := by
  simp [get_api_key_and_provider, h1, h2]

/-- Witness for C8: "gpt-5" belongs to neither family and is rejected. -/
theorem unsupported_model_rejected_witness :
    get_api_key_and_provider sampleEnv "gpt-5" =
      Except.error { status_code := 400, message := "Invalid model name" } :=
  unsupported_model_rejected sampleEnv "gpt-5" (by decide) (by decide)

/-- C9: every usage event the generator emits carries the fixed account id,
ip address "127.0.0.1" and empty user agent, and takes user and tenant from
the ambient per-request context. -/
theorem usage_event_fixed_fields (env : StreamEnv) (chunks : List StreamChunk)
    (p : UsagePayload) (d : Bool)
    (h : Effect.postUsage p d ∈ (handle_streaming_response env chunks).effects) :
    p.account_id = "067423b0-81fa-702b-8000-b03b6db1eb93" ∧
    p.ip_address = "127.0.0.1" ∧ p.user_agent = "" ∧
    p.user_id = env.user_id ∧ p.tenant_id = env.tenant_id :=
  streamLoop_usage_fields env chunks [] 0 p d h

/-- Witness for C9: the usage event of the scenario stream has the fixed
fields and the ambient user and tenant. -/
theorem usage_event_fixed_fields_witness :
    (build_usage_payload sampleStreamEnv
        { prompt_tokens := some 5, completion_tokens := some 2 } 0).account_id =
      "067423b0-81fa-702b-8000-b03b6db1eb93" ∧
    (build_usage_payload sampleStreamEnv
        { prompt_tokens := some 5, completion_tokens := some 2 } 0).ip_address =
      "127.0.0.1" ∧
    (build_usage_payload sampleStreamEnv
        { prompt_tokens := some 5, completion_tokens := some 2 } 0).user_agent = "" ∧
    (build_usage_payload sampleStreamEnv
        { prompt_tokens := some 5, completion_tokens := some 2 } 0).user_id =
      sampleStreamEnv.user_id ∧
    (build_usage_payload sampleStreamEnv
        { prompt_tokens := some 5, completion_tokens := some 2 } 0).tenant_id =
      sampleStreamEnv.tenant_id :=
  usage_event_fixed_fields sampleStreamEnv (sampleChunks ++ [sampleTerminal])
    (build_usage_payload sampleStreamEnv
      { prompt_tokens := some 5, completion_tokens := some 2 } 0)
    true (by decide)

/-- C10: the completion side effects run once per chunk with the terminal
flag and never otherwise — one assistant-message post, one usage post and
one commit per terminal chunk (given terminal chunks carry usage metadata)
— and a stream that never emits a terminal chunk forwards every chunk while
issuing no effect at all. -/
theorem completion_effects_per_terminal (env : StreamEnv)
    (chunks : List StreamChunk)
    (h : ∀ c ∈ chunks, c.done = true → c.usage.isSome = true) :
    (handle_streaming_response env chunks).effects.countP Effect.isCommit =
      chunks.countP (fun c => c.done) ∧
    (handle_streaming_response env chunks).effects.countP Effect.isPostMessage =
      chunks.countP (fun c => c.done) ∧
    (handle_streaming_response env chunks).effects.countP Effect.isPostUsage =
      chunks.countP (fun c => c.done) ∧
    ((∀ c ∈ chunks, c.done = false) →
      (handle_streaming_response env chunks).effects = [] ∧
      (handle_streaming_response env chunks).yielded = chunks) := by
  refine ⟨(streamLoop_counts env chunks h [] 0).1,
    (streamLoop_counts env chunks h [] 0).2.1,
    (streamLoop_counts env chunks h [] 0).2.2, ?_⟩
  intro hnone
  rw [handle_streaming_response, streamLoop_no_done env [] 0 chunks hnone]
  exact ⟨rfl, rfl⟩

/-- Witness for C10: the scenario stream has one terminal chunk, one
message post, one usage post and one commit. -/
theorem completion_effects_per_terminal_witness :
    (handle_streaming_response sampleStreamEnv
        (sampleChunks ++ [sampleTerminal])).effects.countP Effect.isCommit =
      (sampleChunks ++ [sampleTerminal]).countP (fun c => c.done) ∧
    (handle_streaming_response sampleStreamEnv
        (sampleChunks ++ [sampleTerminal])).effects.countP Effect.isPostMessage =
      (sampleChunks ++ [sampleTerminal]).countP (fun c => c.done) ∧
    (handle_streaming_response sampleStreamEnv
        (sampleChunks ++ [sampleTerminal])).effects.countP Effect.isPostUsage =
      (sampleChunks ++ [sampleTerminal]).countP (fun c => c.done) ∧
    ((∀ c ∈ sampleChunks ++ [sampleTerminal], c.done = false) →
      (handle_streaming_response sampleStreamEnv
          (sampleChunks ++ [sampleTerminal])).effects = [] ∧
      (handle_streaming_response sampleStreamEnv
          (sampleChunks ++ [sampleTerminal])).yielded =
        sampleChunks ++ [sampleTerminal]) :=
  completion_effects_per_terminal sampleStreamEnv (sampleChunks ++ [sampleTerminal])
    (by decide)

end MsJarvis
